import Mathlib

/-!
Shallow embedding of the oscillating-vector animation core
(src/c3.py, src/c4.py, src/c5.py): duration defaulting, frame schedule,
per-frame sample computation and composition.

Machine floats are modelled by real numbers; numpy calls (`np.sin`,
`np.cos`, `np.radians`, `np.linspace`) by their mathematical definitions.
-/

open Real

noncomputable section

/-- np.radians: convert degrees to radians, `deg * pi / 180`. -/
def radians (deg : ℝ) : ℝ := deg * Real.pi / 180

/-- A 2-D vector tip position at one instant, as set by
`set_data([0, x], [0, y])` in the update callbacks. -/
structure Sample where
  x : ℝ
  y : ℝ

/-- Duration defaulting at the top of `create_animation`
(src/c3.py line 42, src/c4.py, src/c5.py line 65):
`if duration is None: duration = 1 / self.frequency`. -/
def resolve_duration (frequency : ℝ) (requested : Option ℝ) : ℝ :=
  match requested with
  | none => 1 / frequency
  | some d => d

/-- `total_frames = int(duration * 60)` (src/c3.py line 46).
Python `int()` truncates toward zero, which for the nonnegative
arguments in scope equals the natural floor. -/
def total_frames (duration : ℝ) : ℕ := ⌊duration * 60⌋₊

/-- np.linspace(start, stop, num) with the default endpoint=True:
`num` evenly spaced samples with step `(stop - start)/(num - 1)`;
numpy returns `[start]` for num = 1 and `[]` for num = 0. -/
def linspace (start stop : ℝ) (num : ℕ) : List ℝ :=
  if num ≤ 1 then List.replicate num start
  else (List.range num).map
    (fun i : ℕ => start + (stop - start) * (i : ℝ) / ((num : ℝ) - 1))

/-- `time = np.linspace(0, duration, total_frames)` (src/c3.py line 47). -/
def time_grid (duration : ℝ) : List ℝ := linspace 0 duration (total_frames duration)

/-- The scalar oscillation computed in every update callback:
`amplitude * np.sin(2 * np.pi * frequency * t + phase)`; the phase
argument is 0 where the source writes no offset. -/
def displacement (amplitude frequency t phase : ℝ) : ℝ :=
  amplitude * Real.sin (2 * Real.pi * frequency * t + phase)

namespace C3

/-- Vector from src/c3.py; visual fields (color, point shape, point size,
line style, dotted) are opaque pass-through data and are omitted. -/
structure Vector where
  amplitude : ℝ
  frequency : ℝ

/-- `Vector.__init__` from src/c3.py lines 10-29: stores amplitude and
frequency verbatim; performs no validation and cannot fail. -/
def Vector.init (amplitude frequency : ℝ) : Vector :=
  { amplitude := amplitude, frequency := frequency }

/-- The update callback of src/c3.py lines 68-73:
`x = amplitude * np.sin(2*np.pi*frequency*t)`, `y = 0`. -/
def update (v : Vector) (t : ℝ) : Sample :=
  { x := v.amplitude * Real.sin (2 * Real.pi * v.frequency * t), y := 0 }

end C3

namespace C4

/-- The oscillation axis of a vector in src/c4.py, the `axis` constructor
argument with values `'x'` and `'y'`. -/
inductive Axis
  | x
  | y
deriving DecidableEq

/-- Vector from src/c4.py; there is no phase_shift field, and the visual
fields are opaque pass-through data and are omitted. -/
structure Vector where
  amplitude : ℝ
  frequency : ℝ
  axis : Axis

/-- First vector's branch of the update callback (src/c4.py lines 74-82):
`if self.axis == 'x'` the displacement goes to x with y = 0, otherwise
to y with x = 0; no phase term is added. -/
def update_self (v : Vector) (t : ℝ) : Sample :=
  if v.axis = Axis.x then
    { x := v.amplitude * Real.sin (2 * Real.pi * v.frequency * t), y := 0 }
  else
    { x := 0, y := v.amplitude * Real.sin (2 * Real.pi * v.frequency * t) }

/-- Second vector's branch of the update callback (src/c4.py lines 84-90):
a fixed `+ np.pi / 2` phase offset is written at the call site on the
configured axis; the other coordinate stays 0. -/
def update_other (v : Vector) (t : ℝ) : Sample :=
  if v.axis = Axis.y then
    { x := 0,
      y := v.amplitude * Real.sin (2 * Real.pi * v.frequency * t + Real.pi / 2) }
  else
    { x := v.amplitude * Real.sin (2 * Real.pi * v.frequency * t + Real.pi / 2),
      y := 0 }

end C4

namespace C5

/-- Vector from src/c5.py; `angle` and `phase_shift` hold radians, as
converted once by `__init__`; visual fields are omitted. -/
structure Vector where
  amplitude : ℝ
  frequency : ℝ
  angle : ℝ
  phase_shift : ℝ

/-- `Vector.__init__` from src/c5.py lines 28-51: stores amplitude and
frequency verbatim and converts `angle` and `phase_shift` from degrees to
radians exactly once (`np.radians`); performs no validation and cannot
fail. -/
def Vector.init (amplitude frequency angle phase_shift : ℝ) : Vector :=
  { amplitude := amplitude, frequency := frequency,
    angle := radians angle, phase_shift := radians phase_shift }

/-- First (reference) vector's part of the update callback
(src/c5.py lines 98-101): always on the x-axis with zero phase. -/
def update_self (v : Vector) (t : ℝ) : Sample :=
  { x := v.amplitude * Real.sin (2 * Real.pi * v.frequency * t), y := 0 }

/-- Second (angled) vector's part of the update callback
(src/c5.py lines 103-105): the oscillating magnitude is resolved into
x/y components by cos/sin of the stored angle, with the stored phase
shift inside the sine. -/
def update_other (v : Vector) (t : ℝ) : Sample :=
  { x := v.amplitude * Real.cos v.angle *
         Real.sin (2 * Real.pi * v.frequency * t + v.phase_shift),
    y := v.amplitude * Real.sin v.angle *
         Real.sin (2 * Real.pi * v.frequency * t + v.phase_shift) }

/-- Resultant part of the update callback (src/c5.py lines 107-109):
`x_res = x_self + x_other`, `y_res = y_self + y_other`. -/
def update_resultant (a b : Vector) (t : ℝ) : Sample :=
  { x := (update_self a t).x + (update_other b t).x,
    y := (update_self a t).y + (update_other b t).y }

end C5

/-- Pointwise composition of two sample sequences, lifted from the
per-frame additions `x_res = x_self + x_other`, `y_res = y_self + y_other`
in the update callback (src/c5.py lines 107-109). The source performs no
length check of any kind (both addends are computed from the one shared
`time` array), so on unequal-length inputs this truncates to the shorter
sequence instead of failing. -/
def compose (a b : List Sample) : List Sample :=
  List.zipWith (fun p q => { x := p.x + q.x, y := p.y + q.y }) a b

end

/-- C1: with no requested duration, `create_animation` sets
duration = 1/frequency, one oscillation period of the primary vector. -/
theorem default_duration_one_period (f : ℝ) (hf : 0 < f) :
    resolve_duration f none = 1 / f := by
  rfl

/-- Witness for C1 at frequency 1. -/
theorem default_duration_one_period_inst :
    resolve_duration 1 none = 1 / 1 :=
  default_duration_one_period 1 (by norm_num)

/-- C2: for positive amplitude and frequency, the displacement
`amplitude * sin(2*pi*frequency*t + phase)` is periodic with period
1/frequency, and at the default duration 1/frequency the clip starts
and ends at the same displacement. -/
theorem displacement_periodic_loop (A f t phase : ℝ) (hA : 0 < A) (hf : 0 < f) :
    displacement A f (t + 1 / f) phase = displacement A f t phase ∧
    displacement A f 0 phase = displacement A f (resolve_duration f none) phase := by
  have hf' : f ≠ 0 := ne_of_gt hf
  have key : ∀ s : ℝ, displacement A f (s + 1 / f) phase = displacement A f s phase := by
    intro s
    unfold displacement
    have harg : 2 * Real.pi * f * (s + 1 / f) + phase
        = (2 * Real.pi * f * s + phase) + 2 * Real.pi := by
      field_simp
      ring
    rw [harg, Real.sin_add_two_pi]
  refine ⟨key t, ?_⟩
  have h0 := key 0
  rw [zero_add] at h0
  exact h0.symm

/-- Witness for C2 at amplitude 1, frequency 1, t = 0, phase 0. -/
theorem displacement_periodic_loop_inst :
    displacement 1 1 (0 + 1 / 1) 0 = displacement 1 1 0 0 ∧
    displacement 1 1 0 0 = displacement 1 1 (resolve_duration 1 none) 0 :=
  displacement_periodic_loop 1 1 0 0 (by norm_num) (by norm_num)

theorem linspace_length (s e : ℝ) (n : ℕ) : (linspace s e n).length = n := by
  unfold linspace
  split <;> simp

theorem linspace_getElem (s e : ℝ) {n i : ℕ} (h2 : 2 ≤ n) (hi : i < n) :
    (linspace s e n)[i]? = some (s + (e - s) * i / ((n : ℝ) - 1)) := by
  unfold linspace
  rw [if_neg (by omega), List.getElem?_map, List.getElem?_range hi]
  rfl

/-- C3 (counterexample): at the positive duration 1/60 the schedule has
frame_count = 1 and time grid [0], whose last timestamp is 0, not the
duration 1/60. -/
theorem time_grid_endpoint_cex :
    (0 : ℝ) < 1 / 60 ∧ total_frames (1 / 60) = 1 ∧
    time_grid (1 / 60) = [0] ∧ (0 : ℝ) ≠ 1 / 60 := by
  have h1 : total_frames (1 / 60) = 1 := by
    unfold total_frames
    norm_num
  refine ⟨by norm_num, h1, ?_, by norm_num⟩
  rw [time_grid, h1]
  simp [linspace]

/-- C3 (amended): for positive duration, frame_count = floor(duration*60)
and the grid has exactly frame_count timestamps; when frame_count >= 2 they
are evenly spaced with first 0 and last exactly the duration; when
frame_count = 1 the single timestamp is 0 (not the duration). -/
theorem time_grid_spacing (d : ℝ) (hd : 0 < d) :
    total_frames d = ⌊d * 60⌋₊ ∧
    (time_grid d).length = total_frames d ∧
    (∀ i : ℕ, 2 ≤ total_frames d → i < total_frames d →
      (time_grid d)[i]? = some (d * i / ((total_frames d : ℝ) - 1))) ∧
    (2 ≤ total_frames d → (time_grid d)[0]? = some 0 ∧
      (time_grid d)[total_frames d - 1]? = some d) ∧
    (total_frames d = 1 → time_grid d = [0]) := by
  refine ⟨rfl, linspace_length 0 d (total_frames d), ?_, ?_, ?_⟩
  · intro i h2 hi
    rw [time_grid, linspace_getElem 0 d h2 hi]
    ring_nf
  · intro h2
    constructor
    · rw [time_grid, linspace_getElem 0 d h2 (by omega)]
      norm_num
    · rw [time_grid, linspace_getElem 0 d h2 (by omega)]
      have hn1 : ((total_frames d - 1 : ℕ) : ℝ) = (total_frames d : ℝ) - 1 := by
        have : 1 ≤ total_frames d := by omega
        push_cast [this]
        ring
      have hne : (total_frames d : ℝ) - 1 ≠ 0 := by
        have : (2 : ℝ) ≤ (total_frames d : ℝ) := by exact_mod_cast h2
        intro hc
        nlinarith
      rw [hn1]
      field_simp
  · intro h1
    rw [time_grid, h1]
    simp [linspace]

/-- Witness for C3 (amended) at duration 1 (frame_count 60). -/
theorem time_grid_spacing_inst :
    total_frames 1 = ⌊(1 : ℝ) * 60⌋₊ ∧
    (time_grid 1).length = total_frames 1 ∧
    (∀ i : ℕ, 2 ≤ total_frames 1 → i < total_frames 1 →
      (time_grid 1)[i]? = some (1 * i / ((total_frames 1 : ℝ) - 1))) ∧
    (2 ≤ total_frames 1 → (time_grid 1)[0]? = some 0 ∧
      (time_grid 1)[total_frames 1 - 1]? = some 1) ∧
    (total_frames 1 = 1 → time_grid 1 = [0]) :=
  time_grid_spacing 1 (by norm_num)

/-- C4 (counterexample): constructing a vector with amplitude -1 and
frequency -1 succeeds and stores the out-of-range values verbatim; no
InvalidParameter rejection exists. -/
theorem vector_init_no_validation_cex :
    (C3.Vector.init (-1) (-1)).amplitude = -1 ∧
    (C3.Vector.init (-1) (-1)).frequency = -1 ∧
    (C5.Vector.init (-1) (-1) 0 0).amplitude = -1 ∧
    (C5.Vector.init (-1) (-1) 0 0).frequency = -1 :=
  ⟨rfl, rfl, rfl, rfl⟩

/-- C4 (amended): the Vector constructors perform no validation:
construction always succeeds for any real amplitude and frequency
(including values <= 0), storing them verbatim; c5 additionally converts
angle and phase_shift from degrees to radians. Range enforcement lives
only in the UI layer (slider bounds and input clamping), outside the
core. -/
theorem vector_init_total (a f g p : ℝ) :
    (C3.Vector.init a f).amplitude = a ∧ (C3.Vector.init a f).frequency = f ∧
    (C5.Vector.init a f g p).amplitude = a ∧
    (C5.Vector.init a f g p).frequency = f ∧
    (C5.Vector.init a f g p).angle = radians g ∧
    (C5.Vector.init a f g p).phase_shift = radians p :=
  ⟨rfl, rfl, rfl, rfl, rfl, rfl⟩

/-- C5 (counterexample): at the positive duration 1/120 the computed
frame_count is 0 and the time grid is silently empty; no
DegenerateSchedule error is raised. -/
theorem empty_schedule_cex :
    (0 : ℝ) < 1 / 120 ∧ total_frames (1 / 120) = 0 ∧ time_grid (1 / 120) = [] := by
  have h0 : total_frames (1 / 120) = 0 := by
    unfold total_frames
    norm_num
  refine ⟨by norm_num, h0, ?_⟩
  rw [time_grid, h0]
  simp [linspace]

/-- C5 (amended): there is no DegenerateSchedule guard: the time grid
always has exactly floor(duration*60) entries; for duration*60 < 1 it is
silently empty, and it is nonempty only when duration >= 1/60, not for
every positive duration. -/
theorem frame_count_unguarded (d : ℝ) (hd : 0 < d) :
    (time_grid d).length = total_frames d ∧
    (d * 60 < 1 → time_grid d = []) ∧
    (1 / 60 ≤ d → 1 ≤ (time_grid d).length) := by
  refine ⟨linspace_length 0 d (total_frames d), ?_, ?_⟩
  · intro hsmall
    have h0 : total_frames d = 0 := by
      unfold total_frames
      exact Nat.floor_eq_zero.mpr hsmall
    rw [time_grid, h0]
    simp [linspace]
  · intro hbig
    rw [time_grid, linspace_length]
    have : (1 : ℝ) ≤ d * 60 := by linarith
    exact Nat.le_floor (by exact_mod_cast this)

/-- Witness for C5 (amended) at duration 1. -/
theorem frame_count_unguarded_inst :
    (time_grid 1).length = total_frames 1 ∧
    ((1 : ℝ) * 60 < 1 → time_grid 1 = []) ∧
    ((1 : ℝ) / 60 ≤ 1 → 1 ≤ (time_grid 1).length) :=
  frame_count_unguarded 1 (by norm_num)

/-- C6 (counterexample): composing sample sequences of lengths 1 and 2
does not fail: it silently produces the truncated pointwise sum, so
unequal lengths yield a resultant rather than a ShapeMismatch error. -/
theorem compose_mismatch_cex :
    ([{ x := 0, y := 0 }] : List Sample).length ≠
      ([{ x := 1, y := 2 }, { x := 3, y := 4 }] : List Sample).length ∧
    compose [{ x := 0, y := 0 }] [{ x := 1, y := 2 }, { x := 3, y := 4 }] =
      [{ x := 1, y := 2 }] := by
  refine ⟨by simp, ?_⟩
  simp [compose, Sample.mk.injEq]

/-- C6 (amended): composition has no length check and never fails: its
output always has the minimum of the two lengths (truncation on mismatch,
never a ShapeMismatch error); in the source both sequences are generated
from the one shared time grid, so they always have equal length and the
composition returns the full pointwise sums, frame by frame the update
callback's resultant. -/
theorem compose_no_length_check (a b : C5.Vector) (g : List ℝ) (u v : List Sample) :
    (compose u v).length = min u.length v.length ∧
    (g.map (C5.update_self a)).length = (g.map (C5.update_other b)).length ∧
    compose (g.map (C5.update_self a)) (g.map (C5.update_other b)) =
      g.map (C5.update_resultant a b) := by
  refine ⟨by simp [compose], by simp, ?_⟩
  induction g with
  | nil => rfl
  | cons t ts ih =>
    simp only [List.map_cons, compose, List.zipWith_cons_cons]
    rw [show (compose (ts.map (C5.update_self a)) (ts.map (C5.update_other b))) = List.zipWith (fun p q => { x := p.x + q.x, y := p.y + q.y }) (ts.map (C5.update_self a)) (ts.map (C5.update_other b)) from rfl] at ih
    rw [ih]
    rfl

/-- C7: in angle mode, the angled vector's sample resolves the oscillating
magnitude into x/y components by cos/sin of its angle, with angle and
phase shift converted from degrees to radians once at construction, and
the reference vector's sample is always on the x-axis with zero phase. -/
theorem angle_mode_projection (A f ang ph t : ℝ) :
    C5.update_other (C5.Vector.init A f ang ph) t =
      { x := A * Real.cos (radians ang) *
             Real.sin (2 * Real.pi * f * t + radians ph),
        y := A * Real.sin (radians ang) *
             Real.sin (2 * Real.pi * f * t + radians ph) } ∧
    C5.update_self (C5.Vector.init A f ang ph) t =
      { x := A * Real.sin (2 * Real.pi * f * t), y := 0 } :=
  ⟨rfl, rfl⟩

/-- C8: in the two-vector axis scenario, the first vector oscillates on
its configured axis with zero phase, the second carries the fixed + pi/2
phase offset on its configured axis (the c4 vector has no phase_shift
field at all), and concretely with amplitude 2 at t = 0 the first vector
is (0, 0) and the y-axis second vector is (0, 2). -/
theorem axis_mode_quadrature (A f t : ℝ) :
    C4.update_self { amplitude := A, frequency := f, axis := C4.Axis.x } t =
      { x := A * Real.sin (2 * Real.pi * f * t), y := 0 } ∧
    C4.update_self { amplitude := A, frequency := f, axis := C4.Axis.y } t =
      { x := 0, y := A * Real.sin (2 * Real.pi * f * t) } ∧
    C4.update_other { amplitude := A, frequency := f, axis := C4.Axis.y } t =
      { x := 0, y := A * Real.sin (2 * Real.pi * f * t + Real.pi / 2) } ∧
    C4.update_other { amplitude := A, frequency := f, axis := C4.Axis.x } t =
      { x := A * Real.sin (2 * Real.pi * f * t + Real.pi / 2), y := 0 } ∧
    C4.update_self { amplitude := 2, frequency := 0.1, axis := C4.Axis.x } 0 =
      { x := 0, y := 0 } ∧
    C4.update_other { amplitude := 2, frequency := 0.1, axis := C4.Axis.y } 0 =
      { x := 0, y := 2 } := by
  refine ⟨?_, ?_, ?_, ?_, ?_, ?_⟩
  · simp [C4.update_self]
  · simp [C4.update_self]
  · simp [C4.update_other]
  · simp [C4.update_other]
  · simp [C4.update_self]
  · simp [C4.update_other, Real.sin_pi_div_two]

/-- C9: the composed resultant is the componentwise vector sum at every
index of two equal-length sample sequences, and in the concrete scenario
(amplitude 2, angle 45 degrees, phase shift 90 degrees) the angled
vector and the resultant at t = 0 both equal (sqrt 2, sqrt 2). -/
theorem compose_resultant_sum (u v : List Sample) (i : ℕ)
    (h : u.length = v.length) (hi : i < u.length) (hiv : i < v.length) :
    (compose u v)[i]? =
      some { x := (u.get ⟨i, hi⟩).x + (v.get ⟨i, hiv⟩).x,
             y := (u.get ⟨i, hi⟩).y + (v.get ⟨i, hiv⟩).y } ∧
    C5.update_other (C5.Vector.init 2 0.1 45 90) 0 =
      { x := Real.sqrt 2, y := Real.sqrt 2 } ∧
    C5.update_resultant (C5.Vector.init 2 0.1 0 0) (C5.Vector.init 2 0.1 45 90) 0 =
      { x := Real.sqrt 2, y := Real.sqrt 2 } := by
  have h45 : radians 45 = Real.pi / 4 := by
    unfold radians
    ring
  have h90 : radians 90 = Real.pi / 2 := by
    unfold radians
    ring
  have hother : C5.update_other (C5.Vector.init 2 0.1 45 90) 0 =
      { x := Real.sqrt 2, y := Real.sqrt 2 } := by
    unfold C5.update_other C5.Vector.init
    simp only [h45, h90]
    norm_num [Real.cos_pi_div_four, Real.sin_pi_div_four, Real.sin_pi_div_two,
      Sample.mk.injEq]
    ring
  refine ⟨?_, hother, ?_⟩
  · rw [compose, List.getElem?_zipWith, List.getElem?_eq_getElem hi,
      List.getElem?_eq_getElem hiv]
    simp
  · unfold C5.update_resultant
    rw [hother]
    unfold C5.update_self C5.Vector.init
    norm_num [Sample.mk.injEq]

/-- Witness for C9 on concrete singleton sequences. -/
theorem compose_resultant_sum_inst :
    (compose [{ x := 1, y := 2 }] [{ x := 3, y := 4 }])[0]? =
      some { x := (1 : ℝ) + 3, y := (2 : ℝ) + 4 } ∧
    C5.update_other (C5.Vector.init 2 0.1 45 90) 0 =
      { x := Real.sqrt 2, y := Real.sqrt 2 } ∧
    C5.update_resultant (C5.Vector.init 2 0.1 0 0) (C5.Vector.init 2 0.1 45 90) 0 =
      { x := Real.sqrt 2, y := Real.sqrt 2 } := by
  obtain ⟨h1, h2, h3⟩ :=
    compose_resultant_sum [{ x := 1, y := 2 }] [{ x := 3, y := 4 }] 0
      rfl (by simp) (by simp)
  exact ⟨by simpa using h1, h2, h3⟩

/-- C10: whenever the schedule has at least one frame, the first
timestamp of the time grid is exactly 0, so the primary vector's first
sample is the origin in all three variants, for every amplitude,
frequency and axis. -/
theorem first_frame_origin (A f d : ℝ) (ax : C4.Axis) (hd : 0 < d)
    (hn : 1 ≤ total_frames d) :
    (time_grid d)[0]? = some 0 ∧
    C3.update { amplitude := A, frequency := f } 0 = { x := 0, y := 0 } ∧
    C4.update_self { amplitude := A, frequency := f, axis := ax } 0 =
      { x := 0, y := 0 } ∧
    C5.update_self (C5.Vector.init A f 0 0) 0 = { x := 0, y := 0 } := by
  refine ⟨?_, ?_, ?_, ?_⟩
  · by_cases h2 : 2 ≤ total_frames d
    · rw [time_grid, linspace_getElem 0 d h2 (by omega)]
      norm_num
    · have h1 : total_frames d = 1 := by omega
      rw [time_grid, h1]
      simp [linspace]
  · simp [C3.update]
  · cases ax <;> simp [C4.update_self]
  · simp [C5.update_self, C5.Vector.init]

/-- Witness for C10 at amplitude 1, frequency 1, duration 1, x axis. -/
theorem first_frame_origin_inst :
    (time_grid 1)[0]? = some 0 ∧
    C3.update { amplitude := 1, frequency := 1 } 0 = { x := 0, y := 0 } ∧
    C4.update_self { amplitude := 1, frequency := 1, axis := C4.Axis.x } 0 =
      { x := 0, y := 0 } ∧
    C5.update_self (C5.Vector.init 1 1 0 0) 0 = { x := 0, y := 0 } :=
  first_frame_origin 1 1 1 C4.Axis.x (by norm_num)
    (by unfold total_frames; norm_num)
